import Mathlib

/-
Verification of the hazard-aware routing engine of the
RAG-Driven Climate-Aware GPS Navigator repository.

Part 1 embeds the Python source under app/ (schemas/routing.py,
services/routing_service.py, api/endpoints/routing.py) as executable Lean
definitions: floats become rationals, datetimes become rational timestamps,
uuid4 and utcnow become explicit parameters (a draw function and a clock
value), and raised exceptions become Except errors.

Part 2 models the route-search engine that the repository leaves as an
unimplemented placeholder (services/routing_service.py documents
calculate_pgrouting_route as a constant stub); those definitions are
modelled from the specification, as marked in their doc comments.
-/

namespace ClimateNav

/-! Source embedding: road-network nodes and nearest-node lookup
    (services/routing_service.py, find_nearest_node, lines 237-254). -/

/-- A row of the road_network table: node id and point geometry. -/
structure RoadNode where
  nid : Nat
  lat : ℚ
  lon : ℚ
  deriving DecidableEq

/-- The road_network table contents. -/
abbrev RoadNetwork := List RoadNode

/-- Squared planar distance in degrees between a query point and a node,
the comparison key of both ST_DWithin and ORDER BY distance in the SQL of
find_nearest_node (comparing squared distances agrees with comparing
distances, both being non-negative). -/
def nodeDist2 (lat lon : ℚ) (n : RoadNode) : ℚ :=
  (n.lat - lat) * (n.lat - lat) + (n.lon - lon) * (n.lon - lon)

/-- The squared ST_DWithin radius 0.01 used by find_nearest_node. -/
def radius2 : ℚ := 1 / 10000

/-- Nodes within the radius, nearest first choice: recursive argmin over the
table, keeping the earlier row on ties (ORDER BY distance LIMIT 1). -/
def nearestWithin (lat lon : ℚ) : RoadNetwork → Option RoadNode
  | [] => none
  | n :: ns =>
    match nearestWithin lat lon ns with
    | none => if nodeDist2 lat lon n ≤ radius2 then some n else none
    | some m =>
      if nodeDist2 lat lon n ≤ radius2 ∧ nodeDist2 lat lon n ≤ nodeDist2 lat lon m
      then some n else some m

/-- find_nearest_node: returns the id of the nearest node within the 0.01
degree radius, or none when no node is in range. -/
def find_nearest_node (net : RoadNetwork) (lat lon : ℚ) : Option Nat :=
  (nearestWithin lat lon net).map (fun n => n.nid)

/-! Source embedding: the error vocabulary of the routing service.
    calculate_route raises ValueError for a missing node (line 54) and for a
    missing route (line 66); the risk-reduction division at line 164 of
    compare_routes raises ZeroDivisionError when fastest.risk_score is 0. -/

/-- Exceptions the routing service can raise. -/
inductive RouteError where
  | nodeNotFound
  | noRouteFound
  | zeroDivision
  deriving DecidableEq

/-! Source embedding: calculate_pgrouting_route and the data it returns
    (services/routing_service.py lines 256-298). -/

/-- One entry of the segments list of a pgRouting result. -/
structure SegmentData where
  road_id : Nat
  distance : ℚ
  duration : ℚ
  risk_score : ℚ
  hazards : List String
  deriving DecidableEq

/-- The dictionary returned by calculate_pgrouting_route. -/
structure PgRouteResult where
  total_distance : ℚ
  total_duration : ℚ
  risk_score : ℚ
  risk_factors : List (String × ℚ)
  avoided_hazards : List String
  segments : List SegmentData
  deriving DecidableEq

/-- The signature of the inner route computation: origin node, destination
node, route type, avoid list, departure time; none models the no-route
outcome. -/
abbrev RouteEngine := Nat → Nat → String → List String → Option ℚ → Option PgRouteResult

/-- calculate_pgrouting_route as written in the source: a placeholder that
ignores every argument and returns one fixed result (risk score 0.3, one
segment). -/
def calculate_pgrouting_route : RouteEngine := fun _ _ _ _ _ =>
  some
    { total_distance := 10000
      total_duration := 1200
      risk_score := 3 / 10
      risk_factors := [("flood", 1 / 5), ("weather", 1 / 10)]
      avoided_hazards := ["flood_zone_1", "weather_alert_2"]
      segments :=
        [{ road_id := 1, distance := 5000, duration := 600,
           risk_score := 1 / 5, hazards := [] }] }

/-- Python avoid_hazards or ["flood"] at line 61 of calculate_route: both
None and the empty list are falsy, so both fall back to the default. -/
def effectiveAvoid : Option (List String) → List String
  | none => ["flood"]
  | some [] => ["flood"]
  | some (h :: t) => h :: t

/-! Source embedding: the response schemas (schemas/routing.py) as far as
    calculate_route populates them. -/

/-- RouteSegment response schema, as filled by convert_segment_to_schema:
road_name is always none, hazards always empty, geometry always the
placeholder coordinate list. -/
structure SegmentOut where
  segment_id : Nat
  road_name : Option String
  distance_meters : ℚ
  duration_seconds : ℚ
  risk_score : ℚ
  hazards : List String
  geometry : List (ℚ × ℚ)
  deriving DecidableEq

/-- RouteResponse schema as filled by calculate_route. -/
structure RouteResponse where
  route_id : Nat
  route_type : String
  total_distance_meters : ℚ
  total_duration_seconds : ℚ
  risk_score : ℚ
  segments : List SegmentOut
  route_geometry : List (ℚ × ℚ)
  risk_factors : List (String × ℚ)
  avoided_hazards : List String
  calculated_at : ℚ
  valid_until : ℚ
  deriving DecidableEq

/-- The per-segment records calculate_route builds: segment i receives the
uuid draw number i + 1 (draw 0 is the route id); measures are copied from
the engine result. -/
def buildSegments (fresh : Nat → Nat) (segs : List SegmentData) : List SegmentOut :=
  segs.enum.map fun p =>
    { segment_id := fresh (p.1 + 1)
      road_name := none
      distance_meters := p.2.distance
      duration_seconds := p.2.duration
      risk_score := p.2.risk_score
      hazards := []
      geometry := [(0, 0)] }

/-- calculate_route (services/routing_service.py lines 23-128), over an
arbitrary inner engine. fresh models the sequence of uuid4 draws of the
call, now models datetime.utcnow(); the route is valid for 3600 seconds. -/
def calculate_route_with (engine : RouteEngine) (net : RoadNetwork)
    (origin_lat origin_lon destination_lat destination_lon : ℚ)
    (route_type : String) (avoid_hazards : Option (List String))
    (depart_time : Option ℚ) (fresh : Nat → Nat) (now : ℚ) :
    Except RouteError RouteResponse :=
  match find_nearest_node net origin_lat origin_lon,
        find_nearest_node net destination_lat destination_lon with
  | some o, some d =>
    match engine o d route_type (effectiveAvoid avoid_hazards) depart_time with
    | none => .error .noRouteFound
    | some r =>
      .ok
        { route_id := fresh 0
          route_type := route_type
          total_distance_meters := r.total_distance
          total_duration_seconds := r.total_duration
          risk_score := r.risk_score
          segments := buildSegments fresh r.segments
          route_geometry := [(0, 0)]
          risk_factors := r.risk_factors
          avoided_hazards := r.avoided_hazards
          calculated_at := now
          valid_until := now + 3600 }
  | _, _ => .error .nodeNotFound

/-- calculate_route with the engine the source actually installs. -/
def calculate_route (net : RoadNetwork)
    (origin_lat origin_lon destination_lat destination_lon : ℚ)
    (route_type : String) (avoid_hazards : Option (List String))
    (depart_time : Option ℚ) (fresh : Nat → Nat) (now : ℚ) :
    Except RouteError RouteResponse :=
  calculate_route_with calculate_pgrouting_route net
    origin_lat origin_lon destination_lat destination_lon
    route_type avoid_hazards depart_time fresh now

/-- RouteComparisonResponse schema as filled by compare_routes. -/
structure RouteComparisonResponse where
  comparison_id : Nat
  origin : ℚ × ℚ
  destination : ℚ × ℚ
  fastest_route : RouteResponse
  safest_route : RouteResponse
  balanced_route : RouteResponse
  safety_trade_off_minutes : ℚ
  risk_reduction_percent : ℚ
  compared_at : ℚ
  deriving DecidableEq

/-- compare_routes (services/routing_service.py lines 130-205): three
sequential calculate_route calls (fastest, safest, balanced); any raised
error propagates and aborts the whole comparison. The risk-reduction
division at line 164 is unguarded, so a fastest risk score of zero raises
ZeroDivisionError instead of producing a comparison. -/
def compare_routes_with (engine : RouteEngine) (net : RoadNetwork)
    (origin_lat origin_lon destination_lat destination_lon : ℚ)
    (avoid_hazards : Option (List String)) (depart_time : Option ℚ)
    (fresh : Nat → Nat) (now : ℚ) :
    Except RouteError RouteComparisonResponse :=
  match calculate_route_with engine net origin_lat origin_lon destination_lat
      destination_lon "fastest" avoid_hazards depart_time fresh now with
  | .error e => .error e
  | .ok fastest =>
    match calculate_route_with engine net origin_lat origin_lon destination_lat
        destination_lon "safest" avoid_hazards depart_time fresh now with
    | .error e => .error e
    | .ok safest =>
      match calculate_route_with engine net origin_lat origin_lon destination_lat
          destination_lon "balanced" avoid_hazards depart_time fresh now with
      | .error e => .error e
      | .ok balanced =>
        if fastest.risk_score = 0 then .error .zeroDivision
        else
          .ok
            { comparison_id := fresh 0
              origin := (origin_lat, origin_lon)
              destination := (destination_lat, destination_lon)
              fastest_route := fastest
              safest_route := safest
              balanced_route := balanced
              safety_trade_off_minutes :=
                (safest.total_duration_seconds - fastest.total_duration_seconds) / 60
              risk_reduction_percent :=
                (fastest.risk_score - safest.risk_score) / fastest.risk_score * 100
              compared_at := now }

/-- compare_routes with the engine the source actually installs. -/
def compare_routes (net : RoadNetwork)
    (origin_lat origin_lon destination_lat destination_lon : ℚ)
    (avoid_hazards : Option (List String)) (depart_time : Option ℚ)
    (fresh : Nat → Nat) (now : ℚ) :
    Except RouteError RouteComparisonResponse :=
  compare_routes_with calculate_pgrouting_route net
    origin_lat origin_lon destination_lat destination_lon
    avoid_hazards depart_time fresh now

/-! Source embedding: request validation (schemas/routing.py) and the
    calculate endpoint (api/endpoints/routing.py lines 18-48). -/

/-- The accepted route-type strings of validate_route_type. -/
def validRouteTypes : List String := ["fastest", "safest", "balanced"]

/-- The pydantic validator on RouteRequest.route_type
(schemas/routing.py lines 22-26): rejects anything outside the three
accepted strings, returns the value unchanged otherwise. -/
def validate_route_type (v : String) : Except String String :=
  if v ∈ validRouteTypes then .ok v
  else .error "route_type must be one of: fastest, safest, balanced"

/-- The fields of an incoming calculate request before validation. -/
structure RawRouteRequest where
  origin_lat : ℚ
  origin_lon : ℚ
  destination_lat : ℚ
  destination_lon : ℚ
  depart_time : Option ℚ
  avoid : Option (List String)
  profile : String
  route_type : String

/-- A RouteRequest that passed pydantic validation. -/
structure RouteRequest where
  origin_lat : ℚ
  origin_lon : ℚ
  destination_lat : ℚ
  destination_lon : ℚ
  depart_time : Option ℚ
  avoid : Option (List String)
  profile : String
  route_type : String

/-- Pydantic model construction for RouteRequest: the route_type validator
runs before any handler code; a validation failure prevents the request
object from existing at all. -/
def mkRouteRequest (raw : RawRouteRequest) : Except String RouteRequest :=
  match validate_route_type raw.route_type with
  | .error msg => .error msg
  | .ok rt =>
    .ok
      { origin_lat := raw.origin_lat
        origin_lon := raw.origin_lon
        destination_lat := raw.destination_lat
        destination_lon := raw.destination_lon
        depart_time := raw.depart_time
        avoid := raw.avoid
        profile := raw.profile
        route_type := rt }

/-- What the HTTP layer hands back to the caller: a value, a pydantic
validation rejection (HTTP 422, produced before the handler runs), or an
HTTPException with a status code and detail string. -/
inductive ApiOutcome (α : Type) where
  | ok (value : α)
  | validationError (detail : String)
  | httpError (status : Nat) (detail : String)
  deriving DecidableEq

/-- The calculate endpoint (api/endpoints/routing.py lines 18-48): pydantic
validation first; then the service call, whose every exception is caught by
the blanket handler and turned into the one generic
HTTPException(500, Failed to calculate route). -/
def endpoint_calculate_route_with (engine : RouteEngine) (net : RoadNetwork)
    (raw : RawRouteRequest) (fresh : Nat → Nat) (now : ℚ) :
    ApiOutcome RouteResponse :=
  match mkRouteRequest raw with
  | .error msg => .validationError msg
  | .ok req =>
    match calculate_route_with engine net req.origin_lat req.origin_lon
        req.destination_lat req.destination_lon req.route_type req.avoid
        req.depart_time fresh now with
    | .error _ => .httpError 500 "Failed to calculate route"
    | .ok r => .ok r

/-! Part 2. Modelled from the spec: the route-search engine of sections
    3 and 4.2-4.4. The repository leaves this engine as an unimplemented
    placeholder (calculate_pgrouting_route above returns a constant), so the
    definitions below follow the specification text: hazard features with
    validity windows, per-edge exposures with a severity times type-weight
    times measure risk contribution, hard exclusion of edges carrying an
    active exposure of an avoided type, and a deterministic minimum-cost
    path search with the fewer-edges-then-lexicographic tie-break. -/

/-- Modelled from the spec: ordered severity levels of a hazard feature.
The search code for them is missing from the source. -/
inductive Severity where
  | minor
  | moderate
  | severe
  | extreme
  deriving DecidableEq

/-- Modelled from the spec: the numeric weight of a severity level
(configuration in the spec; a fixed increasing assignment here). -/
def severityWeight : Severity → ℚ
  | .minor => 1
  | .moderate => 2
  | .severe => 3
  | .extreme => 4

/-- Modelled from the spec: a hazard feature with its type, severity and
validity interval (either bound possibly open). -/
structure HazardFeature where
  htype : String
  severity : Severity
  eff_start : Option ℚ
  eff_end : Option ℚ
  deriving DecidableEq

/-- The start of the validity interval has passed (an absent bound always
holds). -/
def startOk : Option ℚ → ℚ → Prop
  | none, _ => True
  | some a, t => a ≤ t

instance (o : Option ℚ) (t : ℚ) : Decidable (startOk o t) :=
  match o with
  | none => isTrue trivial
  | some a => inferInstanceAs (Decidable (a ≤ t))

/-- The end of the validity interval has not passed (an absent bound always
holds). -/
def endOk : Option ℚ → ℚ → Prop
  | none, _ => True
  | some b, t => t ≤ b

instance (o : Option ℚ) (t : ℚ) : Decidable (endOk o t) :=
  match o with
  | none => isTrue trivial
  | some b => inferInstanceAs (Decidable (t ≤ b))

/-- Modelled from the spec: a feature is active only if the query time falls
within its validity interval; missing bounds mean always active. -/
def ActiveAt (h : HazardFeature) (t : ℚ) : Prop :=
  startOk h.eff_start t ∧ endOk h.eff_end t

instance (h : HazardFeature) (t : ℚ) : Decidable (ActiveAt h t) :=
  inferInstanceAs (Decidable (startOk h.eff_start t ∧ endOk h.eff_end t))

/-- Modelled from the spec: the EdgeHazardExposure relation between an edge
and a hazard feature it spatially intersects, with the computed
intersection measure. -/
structure Exposure where
  edge_id : Nat
  hazard : HazardFeature
  measure : ℚ
  deriving DecidableEq

/-- Modelled from the spec: a road-graph edge. -/
structure SEdge where
  eid : Nat
  src : Nat
  dst : Nat
  length_m : ℚ
  travel_time : ℚ
  deriving DecidableEq

/-- Modelled from the spec: an immutable snapshot of road graph plus hazard
exposures. -/
structure Snapshot where
  nodes : List Nat
  edges : List SEdge
  exposures : List Exposure
  deriving DecidableEq

/-- The exposures recorded for one edge of the snapshot. -/
def exposuresFor (s : Snapshot) (eid : Nat) : List Exposure :=
  s.exposures.filter (fun x => x.edge_id == eid)

/-- Modelled from the spec: routing configuration, the per-hazard-type
weights (unrecognized types weigh zero) and the large risk factor K of the
safest profile. -/
structure RiskConfig where
  type_weights : List (String × ℚ)
  ksafe : ℚ

/-- Weight of a hazard type under the configured weight table; an
unrecognized type defaults to zero weight. -/
def weightOf : List (String × ℚ) → String → ℚ
  | [], _ => 0
  | (a, q) :: rest, ty => if a = ty then q else weightOf rest ty

/-- Modelled from the spec: risk contribution of one exposure at the query
time, severity weight times type weight times intersection measure; an
inactive hazard contributes exactly zero. -/
def riskContribution (cfg : RiskConfig) (t : ℚ) (x : Exposure) : ℚ :=
  if ActiveAt x.hazard t then
    severityWeight x.hazard.severity * weightOf cfg.type_weights x.hazard.htype * x.measure
  else 0

/-- Total risk of a list of exposures at the query time. -/
def edgeRiskOn (cfg : RiskConfig) (t : ℚ) : List Exposure → ℚ
  | [] => 0
  | x :: xs => riskContribution cfg t x + edgeRiskOn cfg t xs

/-- Risk term of one edge at the query time. -/
def edgeRisk (s : Snapshot) (cfg : RiskConfig) (t : ℚ) (e : SEdge) : ℚ :=
  edgeRiskOn cfg t (exposuresFor s e.eid)

/-- The edge carries an active exposure whose hazard has the given type. -/
def ActiveTypeExposed (s : Snapshot) (t : ℚ) (e : SEdge) (ty : String) : Prop :=
  ∃ x ∈ exposuresFor s e.eid, x.hazard.htype = ty ∧ ActiveAt x.hazard t

instance (s : Snapshot) (t : ℚ) (e : SEdge) (ty : String) :
    Decidable (ActiveTypeExposed s t e ty) :=
  inferInstanceAs (Decidable (∃ x ∈ exposuresFor s e.eid, x.hazard.htype = ty ∧ ActiveAt x.hazard t))

/-- Modelled from the spec: the avoid list is a hard constraint; an edge
carrying an active exposure of an avoided type is removed from the search
graph entirely. -/
def HardExcluded (s : Snapshot) (avoid : List String) (t : ℚ) (e : SEdge) : Prop :=
  ∃ x ∈ exposuresFor s e.eid, x.hazard.htype ∈ avoid ∧ ActiveAt x.hazard t

instance (s : Snapshot) (avoid : List String) (t : ℚ) (e : SEdge) :
    Decidable (HardExcluded s avoid t e) :=
  inferInstanceAs (Decidable (∃ x ∈ exposuresFor s e.eid, x.hazard.htype ∈ avoid ∧ ActiveAt x.hazard t))

/-- The subgraph the search runs on: every hard-excluded edge removed. -/
def allowedEdgesAux (s : Snapshot) (avoid : List String) (t : ℚ) : List SEdge → List SEdge
  | [] => []
  | e :: es =>
    if HardExcluded s avoid t e then allowedEdgesAux s avoid t es
    else e :: allowedEdgesAux s avoid t es

/-- The edges of the snapshot that survive hard exclusion. -/
def allowedEdges (s : Snapshot) (avoid : List String) (t : ℚ) : List SEdge :=
  allowedEdgesAux s avoid t s.edges

/-- A walk over an edge list: consecutive edges chain the origin to the
destination. -/
inductive IsWalk (E : List SEdge) : Nat → List SEdge → Nat → Prop where
  | nil (a : Nat) : IsWalk E a [] a
  | cons {a b : Nat} {e : SEdge} {w : List SEdge} :
      e ∈ E → e.src = a → IsWalk E e.dst w b → IsWalk E a (e :: w) b

/-- The node sequence a walk visits. -/
def nodeSeq (a : Nat) (w : List SEdge) : List Nat :=
  a :: w.map (fun e => e.dst)

/-- Out-edges of a node whose far endpoint has not been visited yet. -/
def outEdges (a : Nat) (vis : List Nat) : List SEdge → List SEdge
  | [] => []
  | e :: es =>
    if e.src = a ∧ e.dst ∉ vis then e :: outEdges a vis es
    else outEdges a vis es

/-- All simple paths (walks with pairwise distinct nodes) of length at most
the fuel from a to b avoiding the visited list, over the edge list E. -/
def pathsFrom (E : List SEdge) : Nat → List Nat → Nat → Nat → List (List SEdge)
  | 0, _, a, b => if a = b then [[]] else []
  | n + 1, vis, a, b =>
    (if a = b then [[]] else []) ++
      (outEdges a (a :: vis) E).flatMap
        (fun e => (pathsFrom E n (a :: vis) e.dst b).map (fun w => e :: w))

/-- Base travel cost of a path: the sum of free-flow travel times. -/
def pathBase : List SEdge → ℚ
  | [] => 0
  | e :: es => e.travel_time + pathBase es

/-- Risk term of a path: the sum of edge risks at the query time. -/
def pathRisk (s : Snapshot) (cfg : RiskConfig) (t : ℚ) : List SEdge → ℚ
  | [] => 0
  | e :: es => edgeRisk s cfg t e + pathRisk s cfg t es

/-- Modelled from the spec: the risk multiplier of each profile; zero for
fastest, one for balanced, the large configured K for safest. -/
def profileK (cfg : RiskConfig) : String → ℚ
  | "fastest" => 0
  | "safest" => cfg.ksafe
  | _ => 1

/-- Modelled from the spec: cost of a path under a profile, base plus K
times risk. -/
def pathCost (s : Snapshot) (cfg : RiskConfig) (t : ℚ) (prof : String)
    (w : List SEdge) : ℚ :=
  pathBase w + profileK cfg prof * pathRisk s cfg t w

/-- Strict lexicographic order on node-id sequences, the final tie-break of
the search. -/
def seqLt : List Nat → List Nat → Prop
  | [], [] => False
  | [], _ :: _ => True
  | _ :: _, [] => False
  | a :: xs, b :: ys => a < b ∨ (a = b ∧ seqLt xs ys)

instance seqLtDec : (xs ys : List Nat) → Decidable (seqLt xs ys)
  | [], [] => isFalse (fun h => h)
  | [], _ :: _ => isTrue trivial
  | _ :: _, [] => isFalse (fun h => h)
  | a :: xs, b :: ys =>
    let _ := seqLtDec xs ys
    inferInstanceAs (Decidable (a < b ∨ (a = b ∧ seqLt xs ys)))

/-- Modelled from the spec: the deterministic preference order among
candidate paths; strictly smaller cost first, then strictly fewer edges,
then lexicographically smaller node sequence. -/
def BetterPath (s : Snapshot) (cfg : RiskConfig) (t : ℚ) (prof : String)
    (p q : List SEdge) : Prop :=
  pathCost s cfg t prof p < pathCost s cfg t prof q ∨
    (pathCost s cfg t prof p = pathCost s cfg t prof q ∧
      (p.length < q.length ∨
        (p.length = q.length ∧
          seqLt (p.map (fun e => e.dst)) (q.map (fun e => e.dst)))))

instance (s : Snapshot) (cfg : RiskConfig) (t : ℚ) (prof : String)
    (p q : List SEdge) : Decidable (BetterPath s cfg t prof p q) :=
  inferInstanceAs (Decidable (_ ∨ _))

/-- Select the best path of a nonempty candidate list, keeping the current
best unless a candidate is strictly better under the preference order. -/
def pickBest (s : Snapshot) (cfg : RiskConfig) (t : ℚ) (prof : String) :
    List SEdge → List (List SEdge) → List SEdge
  | best, [] => best
  | best, p :: ps =>
    if BetterPath s cfg t prof p best then pickBest s cfg t prof p ps
    else pickBest s cfg t prof best ps

/-- Modelled from the spec: find_route of section 4.4. Enumerates every
simple path of the hard-exclusion-filtered subgraph (the node count bounds
the length of a simple path) and returns the minimum-cost one under the
deterministic tie-break, or none when the destination is unreachable. -/
def find_route (s : Snapshot) (cfg : RiskConfig) (avoid : List String)
    (t : ℚ) (o d : Nat) (prof : String) : Option (List SEdge) :=
  match pathsFrom (allowedEdges s avoid t) s.nodes.length [] o d with
  | [] => none
  | p :: ps => some (pickBest s cfg t prof p ps)

/-- A flood-free feasible path: a simple path of the full graph none of
whose edges carries an active flood exposure. -/
def FloodFreePath (s : Snapshot) (t : ℚ) (o d : Nat) : Prop :=
  ∃ p, IsWalk s.edges o p d ∧ (nodeSeq o p).Nodup ∧
    ∀ e ∈ p, ¬ ActiveTypeExposed s t e "flood"

/-! Concrete instances used to exercise the definitions. -/

/-- A one-node road network sitting exactly at the origin of coordinates. -/
def net1 : RoadNetwork := [{ nid := 1, lat := 0, lon := 0 }]

/-- An engine variant whose routes carry a zero risk score (hazard-free
routes), for exercising the comparison metrics. -/
def zeroRiskEngine : RouteEngine := fun _ _ _ _ _ =>
  some
    { total_distance := 1000, total_duration := 600, risk_score := 0,
      risk_factors := [], avoided_hazards := [], segments := [] }

/-- An engine variant returning fixed risk scores per profile, for
exercising the comparison metrics. -/
def fixedRiskEngine (f s b : ℚ) : RouteEngine := fun _ _ rt _ _ =>
  some
    { total_distance := 1000, total_duration := 600,
      risk_score := if rt = "fastest" then f else if rt = "safest" then s else b,
      risk_factors := [], avoided_hazards := [], segments := [] }

/-- An engine variant that finds no route, the no-route outcome of the
inner search. -/
def noRouteEngine : RouteEngine := fun _ _ _ _ _ => none

/-- A well-formed raw request with the default balanced route type. -/
def rawBalanced : RawRouteRequest :=
  { origin_lat := 0, origin_lon := 0, destination_lat := 0, destination_lon := 0,
    depart_time := none, avoid := none, profile := "car", route_type := "balanced" }

/-- A raw request carrying an unrecognized route-type string. -/
def rawScenic : RawRouteRequest :=
  { origin_lat := 0, origin_lon := 0, destination_lat := 0, destination_lon := 0,
    depart_time := none, avoid := none, profile := "car", route_type := "scenic" }

/-- The route-describing content of a response segment: everything except
the freshly drawn segment id. -/
structure SegmentContent where
  road_name : Option String
  distance_meters : ℚ
  duration_seconds : ℚ
  risk_score : ℚ
  hazards : List String
  geometry : List (ℚ × ℚ)
  deriving DecidableEq

/-- The route-describing content of a RouteResponse: everything except the
freshly drawn route id, the freshly drawn segment ids, and the clock-stamped
calculated_at and valid_until fields. -/
structure RouteContent where
  route_type : String
  total_distance_meters : ℚ
  total_duration_seconds : ℚ
  risk_score : ℚ
  seg_contents : List SegmentContent
  route_geometry : List (ℚ × ℚ)
  risk_factors : List (String × ℚ)
  avoided_hazards : List String
  deriving DecidableEq

/-- Project a segment onto its route-describing content. -/
def segmentContent (s : SegmentOut) : SegmentContent :=
  { road_name := s.road_name
    distance_meters := s.distance_meters
    duration_seconds := s.duration_seconds
    risk_score := s.risk_score
    hazards := s.hazards
    geometry := s.geometry }

/-- Project a response onto its route-describing content. -/
def routeContent (r : RouteResponse) : RouteContent :=
  { route_type := r.route_type
    total_distance_meters := r.total_distance_meters
    total_duration_seconds := r.total_duration_seconds
    risk_score := r.risk_score
    seg_contents := r.segments.map segmentContent
    route_geometry := r.route_geometry
    risk_factors := r.risk_factors
    avoided_hazards := r.avoided_hazards }

/-- The three-node scenario of the spec: a chain 1 to 2 to 3 whose second
edge crosses an always-active extreme flood zone, and no alternate edge. -/
def floodSnapshot : Snapshot :=
  { nodes := [1, 2, 3]
    edges :=
      [{ eid := 1, src := 1, dst := 2, length_m := 100, travel_time := 10 },
       { eid := 2, src := 2, dst := 3, length_m := 100, travel_time := 10 }]
    exposures :=
      [{ edge_id := 2,
         hazard := { htype := "flood", severity := .extreme, eff_start := none, eff_end := none },
         measure := 1 }] }

/-- A direct edge from node 1 to node 3, fast but flood-exposed. -/
def eDirect : SEdge := { eid := 1, src := 1, dst := 3, length_m := 100, travel_time := 10 }

/-- The first leg of a hazard-free detour, node 1 to node 2. -/
def eOut : SEdge := { eid := 2, src := 1, dst := 2, length_m := 200, travel_time := 20 }

/-- The second leg of the hazard-free detour, node 2 to node 3. -/
def eIn : SEdge := { eid := 3, src := 2, dst := 3, length_m := 200, travel_time := 20 }

/-- A snapshot with a risky direct edge from 1 to 3 and a hazard-free
two-edge detour through 2. -/
def orderSnapshot : Snapshot :=
  { nodes := [1, 2, 3]
    edges := [eDirect, eOut, eIn]
    exposures :=
      [{ edge_id := 1,
         hazard := { htype := "flood", severity := .extreme, eff_start := none, eff_end := none },
         measure := 1 }] }

/-- A configuration weighing flood hazards five and using a large safest
factor. -/
def cfgEx : RiskConfig := { type_weights := [("flood", 5)], ksafe := 100 }

/-- An exposure to a flood hazard whose validity window closed at time 5. -/
def expiredExposure : Exposure :=
  { edge_id := 7,
    hazard := { htype := "flood", severity := .severe, eff_start := none, eff_end := some 5 },
    measure := 1 }

/-! Theorems. -/

/-- The one-node network resolves the origin of coordinates to node 1. -/
theorem net1_lookup : find_nearest_node net1 0 0 = some 1 := by
  norm_num [find_nearest_node, nearestWithin, net1, nodeDist2, radius2]

/-- C10: for every route calculation in which the caller supplies no
avoid-hazard list, the engine substitutes the default avoid list
containing exactly flood, so the request is computed identically to one
that explicitly avoids flood hazards. -/
theorem C10_default_avoid_flood (engine : RouteEngine) (net : RoadNetwork)
    (olat olon dlat dlon : ℚ) (rt : String) (dt : Option ℚ)
    (fresh : Nat → Nat) (now : ℚ) :
    effectiveAvoid none = ["flood"] ∧
      calculate_route_with engine net olat olon dlat dlon rt none dt fresh now =
        calculate_route_with engine net olat olon dlat dlon rt (some ["flood"]) dt fresh now :=
  ⟨rfl, rfl⟩

/-- C7: a route request whose route_type is outside fastest, safest,
balanced is rejected by the pydantic validator before any route is
computed (the endpoint returns the typed validation rejection whatever the
network or engine), and a route_type inside the set is accepted
unchanged. -/
theorem C7_route_type_validation (raw : RawRouteRequest) (engine : RouteEngine)
    (net : RoadNetwork) (fresh : Nat → Nat) (now : ℚ) :
    (validate_route_type raw.route_type = .ok raw.route_type ↔
      raw.route_type ∈ validRouteTypes) ∧
    (raw.route_type ∉ validRouteTypes →
      endpoint_calculate_route_with engine net raw fresh now =
        .validationError "route_type must be one of: fastest, safest, balanced") ∧
    (raw.route_type ∈ validRouteTypes →
      (mkRouteRequest raw).map (fun r => r.route_type) = .ok raw.route_type) := by
  by_cases h : raw.route_type ∈ validRouteTypes
  · exact ⟨by simp [validate_route_type, h], fun hn => absurd h hn,
      fun _ => by simp [mkRouteRequest, validate_route_type, h, Except.map]⟩
  · refine ⟨by simp [validate_route_type, h], fun _ => ?_, fun hm => absurd hm h⟩
    simp [endpoint_calculate_route_with, mkRouteRequest, validate_route_type, h]

/-- Witness for C7: the unrecognized route type scenic is rejected before
any route computation. -/
theorem C7_route_type_validation_witness :
    ("scenic" ∉ validRouteTypes) ∧
      endpoint_calculate_route_with calculate_pgrouting_route net1 rawScenic (fun _ => 0) 0 =
        .validationError "route_type must be one of: fastest, safest, balanced" :=
  ⟨by decide,
    (C7_route_type_validation rawScenic calculate_pgrouting_route net1 (fun _ => 0) 0).2.1
      (by decide)⟩

/-- C3: if one of the three constituent searches of a comparison finds no
route, compare_routes propagates the no-route error for the whole
comparison and returns no partial comparison result. -/
theorem C3_no_route_aborts_comparison (engine : RouteEngine) (net : RoadNetwork)
    (olat olon dlat dlon : ℚ) (avoid : Option (List String)) (dt : Option ℚ)
    (fresh : Nat → Nat) (now : ℚ) (o d : Nat) (rt : String)
    (ho : find_nearest_node net olat olon = some o)
    (hd : find_nearest_node net dlat dlon = some d)
    (hrt : rt ∈ validRouteTypes)
    (hfail : engine o d rt (effectiveAvoid avoid) dt = none) :
    compare_routes_with engine net olat olon dlat dlon avoid dt fresh now =
      .error .noRouteFound := by
  have hrt3 : rt = "fastest" ∨ rt = "safest" ∨ rt = "balanced" := by
    simpa [validRouteTypes] using hrt
  unfold compare_routes_with calculate_route_with
  rcases hrt3 with h | h | h <;> subst h
  · simp [ho, hd, hfail]
  · cases hf : engine o d "fastest" (effectiveAvoid avoid) dt <;> simp [ho, hd, hfail, hf]
  · cases hf : engine o d "fastest" (effectiveAvoid avoid) dt <;>
      cases hs : engine o d "safest" (effectiveAvoid avoid) dt <;>
        simp [ho, hd, hfail, hf, hs]

/-- Witness for C3: an engine that finds no route makes the whole
comparison fail with the no-route error. -/
theorem C3_no_route_aborts_comparison_witness :
    (find_nearest_node net1 0 0 = some 1) ∧ ("fastest" ∈ validRouteTypes) ∧
      (noRouteEngine 1 1 "fastest" (effectiveAvoid none) none = none) ∧
      compare_routes_with noRouteEngine net1 0 0 0 0 none none (fun _ => 0) 0 =
        .error .noRouteFound :=
  ⟨net1_lookup, by decide, rfl,
    C3_no_route_aborts_comparison noRouteEngine net1 0 0 0 0 none none (fun _ => 0) 0
      1 1 "fastest" net1_lookup net1_lookup (by decide) rfl⟩

/-- C5: whenever the fastest risk score is non-zero, the reported
risk_reduction_percent is exactly fastest risk minus safest risk, divided
by fastest risk, times one hundred. -/
theorem C5_risk_reduction_formula (f s b : ℚ) (net : RoadNetwork)
    (olat olon dlat dlon : ℚ) (o d : Nat) (avoid : Option (List String))
    (dt : Option ℚ) (fresh : Nat → Nat) (now : ℚ)
    (ho : find_nearest_node net olat olon = some o)
    (hd : find_nearest_node net dlat dlon = some d)
    (hf : f ≠ 0) :
    (compare_routes_with (fixedRiskEngine f s b) net olat olon dlat dlon avoid dt fresh now).map
        (fun c => c.risk_reduction_percent) =
      .ok ((f - s) / f * 100) := by
  unfold compare_routes_with calculate_route_with fixedRiskEngine
  simp [ho, hd, hf, Except.map]

/-- Witness for C5: fastest risk 0.40 and safest risk 0.10 report a
seventy-five percent risk reduction. -/
theorem C5_risk_reduction_formula_witness :
    ((2 : ℚ) / 5 ≠ 0) ∧
      (compare_routes_with (fixedRiskEngine (2 / 5) (1 / 10) (1 / 5)) net1 0 0 0 0
            none none (fun _ => 0) 0).map
          (fun c => c.risk_reduction_percent) =
        .ok 75 := by
  refine ⟨by norm_num, ?_⟩
  rw [C5_risk_reduction_formula (2 / 5) (1 / 10) (1 / 5) net1 0 0 0 0 1 1 none none
    (fun _ => 0) 0 net1_lookup net1_lookup (by norm_num)]
  norm_num

/-- C1 failing input: the claim says a comparison whose fastest route has
risk score zero reports a zero risk reduction without dividing; the code
instead performs the unguarded division at line 164 of
services/routing_service.py, which raises ZeroDivisionError, so the
comparison aborts with an error instead of returning zero. -/
theorem C1_zero_risk_comparison_raises :
    compare_routes_with zeroRiskEngine net1 0 0 0 0 none none (fun _ => 0) 0 =
      .error .zeroDivision := by
  unfold compare_routes_with calculate_route_with zeroRiskEngine
  simp [net1_lookup]

/-- C6 counterexample: the claim says a request whose endpoints have no
nearby road node yields a typed NotFound outcome; the endpoint instead
returns the one generic HTTP 500 detail, indistinguishable from the
outcome of an entirely different failure such as no route existing. -/
theorem C6_counterexample :
    endpoint_calculate_route_with calculate_pgrouting_route [] rawBalanced (fun _ => 0) 0 =
        .httpError 500 "Failed to calculate route" ∧
      endpoint_calculate_route_with noRouteEngine net1 rawBalanced (fun _ => 0) 0 =
        .httpError 500 "Failed to calculate route" := by
  constructor
  · simp [endpoint_calculate_route_with, mkRouteRequest, validate_route_type, validRouteTypes,
      calculate_route_with, find_nearest_node, nearestWithin, rawBalanced]
  · simp [endpoint_calculate_route_with, mkRouteRequest, validate_route_type, validRouteTypes,
      calculate_route_with, rawBalanced, net1_lookup, noRouteEngine]

/-- C6 amended: when no road node lies within the search radius of the
origin or destination, calculate_route raises the missing-node error
(reported, not silently defaulted), and the API surfaces it as the generic
HTTP 500 detail rather than a typed NotFound outcome. -/
theorem C6_missing_node_reports_generic_500 (engine : RouteEngine)
    (net : RoadNetwork) (raw : RawRouteRequest) (fresh : Nat → Nat) (now : ℚ)
    (hv : raw.route_type ∈ validRouteTypes)
    (hmiss : find_nearest_node net raw.origin_lat raw.origin_lon = none ∨
      find_nearest_node net raw.destination_lat raw.destination_lon = none) :
    calculate_route_with engine net raw.origin_lat raw.origin_lon
        raw.destination_lat raw.destination_lon raw.route_type raw.avoid
        raw.depart_time fresh now = .error .nodeNotFound ∧
      endpoint_calculate_route_with engine net raw fresh now =
        .httpError 500 "Failed to calculate route" := by
  have hcalc : calculate_route_with engine net raw.origin_lat raw.origin_lon
      raw.destination_lat raw.destination_lon raw.route_type raw.avoid
      raw.depart_time fresh now = .error .nodeNotFound := by
    unfold calculate_route_with
    rcases hmiss with h | h
    · simp [h]
    · cases hx : find_nearest_node net raw.origin_lat raw.origin_lon <;> simp [hx, h]
  refine ⟨hcalc, ?_⟩
  simp [endpoint_calculate_route_with, mkRouteRequest, validate_route_type, hv, hcalc]

/-- Witness for the amended C6: an empty road network takes the endpoint to
the generic 500 outcome. -/
theorem C6_missing_node_witness :
    (find_nearest_node [] rawBalanced.origin_lat rawBalanced.origin_lon = none) ∧
      endpoint_calculate_route_with calculate_pgrouting_route [] rawBalanced (fun _ => 0) 0 =
        .httpError 500 "Failed to calculate route" :=
  ⟨rfl,
    (C6_missing_node_reports_generic_500 calculate_pgrouting_route [] rawBalanced
      (fun _ => 0) 0 (by decide) (Or.inl rfl)).2⟩

/-- C4 counterexample: the claim says two identical route requests return
bit-identical records; the route id is a fresh uuid4 draw per call, so two
calls differing only in that draw return different records. -/
theorem C4_counterexample :
    calculate_route net1 0 0 0 0 "balanced" none none (fun _ => 0) 0 ≠
      calculate_route net1 0 0 0 0 "balanced" none none (fun _ => 1) 0 := by
  simp [calculate_route, calculate_route_with, net1_lookup, calculate_pgrouting_route,
    buildSegments, RouteResponse.mk.injEq]

/-- C4 amended: two calls with identical route inputs against the same
network agree on every route-describing field (type, totals, risk score,
segment measures, geometry, risk factors, avoided hazards); only the fresh
uuid draws and clock stamps may differ. -/
theorem C4_route_content_deterministic (engine : RouteEngine) (net : RoadNetwork)
    (olat olon dlat dlon : ℚ) (rt : String) (avoid : Option (List String))
    (dt : Option ℚ) (f1 f2 : Nat → Nat) (n1 n2 : ℚ) :
    (calculate_route_with engine net olat olon dlat dlon rt avoid dt f1 n1).map routeContent =
      (calculate_route_with engine net olat olon dlat dlon rt avoid dt f2 n2).map routeContent := by
  unfold calculate_route_with
  cases ho : find_nearest_node net olat olon <;>
    cases hd : find_nearest_node net dlat dlon <;> simp
  cases he : engine _ _ rt (effectiveAvoid avoid) dt <;>
    simp [routeContent, buildSegments, segmentContent, List.map_map, Function.comp, Except.map]

/-! Lemmas about the modelled route search. -/

/-- A duplicate-free list contained in another list is no longer than it. -/
theorem nodupSubsetLength {d l : List Nat} (hd : d.Nodup) (hsub : d ⊆ l) :
    d.length ≤ l.length := by
  classical
  calc d.length = d.toFinset.card := (List.toFinset_card_of_nodup hd).symm
    _ ≤ l.toFinset.card := Finset.card_le_card (fun x hx => by
        simp only [List.mem_toFinset] at *
        exact hsub hx)
    _ ≤ l.length := l.toFinset_card_le

/-- Membership in the out-edge selection. -/
theorem outEdges_mem {a : Nat} {vis : List Nat} {E : List SEdge} {e : SEdge} :
    e ∈ outEdges a vis E ↔ e ∈ E ∧ e.src = a ∧ e.dst ∉ vis := by
  induction E with
  | nil => simp [outEdges]
  | cons f fs ih =>
    by_cases h : f.src = a ∧ f.dst ∉ vis
    · simp only [outEdges, if_pos h, List.mem_cons, ih]
      constructor
      · rintro (rfl | ⟨he, hs, hd'⟩)
        exacts [⟨Or.inl rfl, h.1, h.2⟩, ⟨Or.inr he, hs, hd'⟩]
      · rintro ⟨(rfl | he), hs, hd'⟩
        exacts [Or.inl rfl, Or.inr ⟨he, hs, hd'⟩]
    · simp only [outEdges, if_neg h, ih, List.mem_cons]
      constructor
      · rintro ⟨he, hs, hd'⟩
        exact ⟨Or.inr he, hs, hd'⟩
      · rintro ⟨(rfl | he), hs, hd'⟩
        · exact absurd ⟨hs, hd'⟩ h
        · exact ⟨he, hs, hd'⟩

/-- Membership in the hard-exclusion filter. -/
theorem allowedEdgesAux_mem {s : Snapshot} {avoid : List String} {t : ℚ}
    {l : List SEdge} {e : SEdge} :
    e ∈ allowedEdgesAux s avoid t l ↔ e ∈ l ∧ ¬ HardExcluded s avoid t e := by
  induction l with
  | nil => simp [allowedEdgesAux]
  | cons f fs ih =>
    by_cases h : HardExcluded s avoid t f
    · simp only [allowedEdgesAux, if_pos h, ih, List.mem_cons]
      constructor
      · rintro ⟨he, hne⟩
        exact ⟨Or.inr he, hne⟩
      · rintro ⟨(rfl | he), hne⟩
        · exact absurd h hne
        · exact ⟨he, hne⟩
    · simp only [allowedEdgesAux, if_neg h, List.mem_cons, ih]
      constructor
      · rintro (rfl | ⟨he, hne⟩)
        exacts [⟨Or.inl rfl, h⟩, ⟨Or.inr he, hne⟩]
      · rintro ⟨(rfl | he), hne⟩
        exacts [Or.inl rfl, Or.inr ⟨he, hne⟩]

/-- An edge survives hard exclusion exactly when it is a snapshot edge with
no active exposure of an avoided type. -/
theorem allowedEdges_mem {s : Snapshot} {avoid : List String} {t : ℚ} {e : SEdge} :
    e ∈ allowedEdges s avoid t ↔ e ∈ s.edges ∧ ¬ HardExcluded s avoid t e :=
  allowedEdgesAux_mem

/-- Every edge of a walk belongs to the walked edge list. -/
theorem IsWalk.edge_mem {E : List SEdge} {a b : Nat} {w : List SEdge}
    (hw : IsWalk E a w b) : ∀ e ∈ w, e ∈ E := by
  induction hw with
  | nil => simp
  | cons he _ _ ih =>
    intro e hme
    rcases List.mem_cons.1 hme with rfl | hme
    · exact he
    · exact ih e hme

/-- A walk is a walk over any edge list containing its edges. -/
theorem IsWalk.mono {E E' : List SEdge} {a b : Nat} {w : List SEdge}
    (hw : IsWalk E a w b) (hsub : ∀ e ∈ w, e ∈ E') : IsWalk E' a w b := by
  induction hw with
  | nil => exact .nil _
  | cons he hs _ ih =>
    exact .cons (hsub _ (List.mem_cons_self _ _)) hs
      (ih fun e he' => hsub e (List.mem_cons_of_mem _ he'))

/-- Soundness of the path enumeration: every enumerated list is a walk with
pairwise distinct nodes, none of them previously visited. -/
theorem pathsFrom_sound {E : List SEdge} :
    ∀ (f : Nat) (vis : List Nat) (a b : Nat) (p : List SEdge),
      p ∈ pathsFrom E f vis a b →
      IsWalk E a p b ∧ (nodeSeq a p).Nodup ∧ ∀ x ∈ p.map (fun e => e.dst), x ∉ vis := by
  intro f
  induction f with
  | zero =>
    intro vis a b p hp
    by_cases hab : a = b
    · subst hab
      simp only [pathsFrom, if_true, eq_self_iff_true, List.mem_singleton] at hp
      subst hp
      exact ⟨.nil _, by simp [nodeSeq], by simp⟩
    · simp [pathsFrom, hab] at hp
  | succ n ih =>
    intro vis a b p hp
    simp only [pathsFrom, List.mem_append] at hp
    rcases hp with hp | hp
    · by_cases hab : a = b
      · subst hab
        simp only [if_true, eq_self_iff_true, List.mem_singleton] at hp
        subst hp
        exact ⟨.nil _, by simp [nodeSeq], by simp⟩
      · simp [hab] at hp
    · rw [List.mem_flatMap] at hp
      obtain ⟨e, hee, hpe⟩ := hp
      rw [List.mem_map] at hpe
      obtain ⟨q, hq, rfl⟩ := hpe
      obtain ⟨heE, hsrc, hdst⟩ := outEdges_mem.1 hee
      obtain ⟨hwq, hnq, hvq⟩ := ih (a :: vis) e.dst b q hq
      refine ⟨.cons heE hsrc hwq, ?_, ?_⟩
      · simp only [nodeSeq, List.map_cons] at hnq ⊢
        refine List.nodup_cons.2 ⟨?_, hnq⟩
        intro ha
        rcases List.mem_cons.1 ha with h1 | h1
        · exact hdst (h1 ▸ List.mem_cons_self a vis)
        · exact (hvq a h1) (List.mem_cons_self a vis)
      · intro x hx
        simp only [List.map_cons, List.mem_cons] at hx
        rcases hx with rfl | h1
        · exact fun hv => hdst (List.mem_cons_of_mem _ hv)
        · exact fun hv => (hvq x h1) (List.mem_cons_of_mem _ hv)

/-- Completeness of the path enumeration: a walk with pairwise distinct
nodes avoiding the visited list and short enough for the fuel is
enumerated. -/
theorem pathsFrom_complete {E : List SEdge} {a b : Nat} {p : List SEdge}
    (hw : IsWalk E a p b) :
    ∀ (f : Nat) (vis : List Nat), (nodeSeq a p).Nodup →
      (∀ x ∈ p.map (fun e => e.dst), x ∉ vis) → p.length ≤ f →
      p ∈ pathsFrom E f vis a b := by
  induction hw with
  | nil a =>
    intro f vis _ _ _
    cases f with
    | zero => simp [pathsFrom]
    | succ n => simp [pathsFrom]
  | cons he hs hw ih =>
    rename_i a b e q
    intro f vis hnd hvis hlen
    cases f with
    | zero => simp at hlen
    | succ n =>
      have hnd1 := List.nodup_cons.1
        (show (a :: e.dst :: q.map (fun e => e.dst)).Nodup from hnd)
      have hadst : a ∉ (e :: q).map (fun e => e.dst) := hnd1.1
      have hdst : e.dst ∉ a :: vis := by
        intro hv
        rcases List.mem_cons.1 hv with h1 | h1
        · exact hadst (h1 ▸ List.mem_cons_self _ _)
        · exact hvis e.dst (by simp) h1
      simp only [pathsFrom, List.mem_append]
      right
      rw [List.mem_flatMap]
      refine ⟨e, outEdges_mem.2 ⟨he, hs, hdst⟩, ?_⟩
      rw [List.mem_map]
      refine ⟨q, ih n (a :: vis) ?_ ?_ ?_, rfl⟩
      · exact hnd1.2
      · intro x hx
        intro hv
        rcases List.mem_cons.1 hv with h1 | h1
        · exact hadst (h1 ▸ List.mem_cons_of_mem _ hx)
        · exact hvis x (List.mem_cons_of_mem _ hx) h1
      · simpa using Nat.succ_le_succ_iff.1 (by simpa using hlen)

/-- A walk with pairwise distinct nodes over a well-formed edge list is no
longer than the node count. -/
theorem simple_walk_length_le {N : List Nat} {E : List SEdge} {a b : Nat}
    {p : List SEdge} (hw : IsWalk E a p b) (hnd : (nodeSeq a p).Nodup)
    (hwf : ∀ e ∈ E, e.src ∈ N ∧ e.dst ∈ N) : p.length ≤ N.length := by
  cases hw with
  | nil => exact Nat.zero_le _
  | cons he hs hw' =>
    rename_i e q
    have hwalk : IsWalk E a (e :: q) b := .cons he hs hw'
    have hsubset : nodeSeq a (e :: q) ⊆ N := by
      intro x hx
      rcases List.mem_cons.1 hx with rfl | hx
      · exact hs ▸ (hwf e he).1
      · obtain ⟨e', hme', rfl⟩ := List.mem_map.1 hx
        exact (hwf e' (hwalk.edge_mem e' hme')).2
    have hlen := nodupSubsetLength hnd hsubset
    have : (e :: q).length + 1 ≤ N.length := by simpa [nodeSeq] using hlen
    omega

/-- The selected path is one of the candidates. -/
theorem pickBest_mem (s : Snapshot) (cfg : RiskConfig) (t : ℚ) (prof : String) :
    ∀ (ps : List (List SEdge)) (best : List SEdge),
      pickBest s cfg t prof best ps ∈ best :: ps := by
  intro ps
  induction ps with
  | nil =>
    intro best
    simp [pickBest]
  | cons p ps ih =>
    intro best
    by_cases h : BetterPath s cfg t prof p best
    · simp only [pickBest, if_pos h]
      exact List.mem_cons_of_mem _ (ih p)
    · simp only [pickBest, if_neg h]
      rcases List.mem_cons.1 (ih best) with h1 | h1
      · rw [h1]
        exact List.mem_cons_self _ _
      · exact List.mem_cons_of_mem _ (List.mem_cons_of_mem _ h1)

/-- The selected path has minimal profile cost among the candidates. -/
theorem pickBest_min (s : Snapshot) (cfg : RiskConfig) (t : ℚ) (prof : String) :
    ∀ (ps : List (List SEdge)) (best : List SEdge), ∀ q ∈ best :: ps,
      pathCost s cfg t prof (pickBest s cfg t prof best ps) ≤ pathCost s cfg t prof q := by
  intro ps
  induction ps with
  | nil =>
    intro best q hq
    rcases List.mem_cons.1 hq with rfl | h1
    · simp [pickBest]
    · simp at h1
  | cons p ps ih =>
    intro best q hq
    by_cases h : BetterPath s cfg t prof p best
    · simp only [pickBest, if_pos h]
      have hple : pathCost s cfg t prof p ≤ pathCost s cfg t prof best := by
        rcases h with h | h
        · exact le_of_lt h
        · exact le_of_eq h.1
      rcases List.mem_cons.1 hq with heq | h1
      · rw [heq]
        exact le_trans (ih p p (List.mem_cons_self _ _)) hple
      · exact ih p q h1
    · simp only [pickBest, if_neg h]
      have hble : pathCost s cfg t prof best ≤ pathCost s cfg t prof p := by
        by_contra hlt
        push_neg at hlt
        exact h (Or.inl hlt)
      rcases List.mem_cons.1 hq with heq | h1
      · rw [heq]
        exact ih best best (List.mem_cons_self _ _)
      · rcases List.mem_cons.1 h1 with heq | h2
        · rw [heq]
          exact le_trans (ih best best (List.mem_cons_self _ _)) hble
        · exact ih best q (List.mem_cons_of_mem _ h2)

/-- A returned route is an enumerated candidate of minimal profile cost. -/
theorem find_route_some {s : Snapshot} {cfg : RiskConfig} {avoid : List String}
    {t : ℚ} {o d : Nat} {prof : String} {p : List SEdge}
    (h : find_route s cfg avoid t o d prof = some p) :
    p ∈ pathsFrom (allowedEdges s avoid t) s.nodes.length [] o d ∧
      ∀ q ∈ pathsFrom (allowedEdges s avoid t) s.nodes.length [] o d,
        pathCost s cfg t prof p ≤ pathCost s cfg t prof q := by
  unfold find_route at h
  cases hc : pathsFrom (allowedEdges s avoid t) s.nodes.length [] o d with
  | nil =>
    rw [hc] at h
    simp at h
  | cons c cs =>
    rw [hc] at h
    simp only [Option.some.injEq] at h
    subst h
    exact ⟨pickBest_mem s cfg t prof cs c, fun q hq => pickBest_min s cfg t prof cs c q hq⟩

/-- The search reports no route exactly when no candidate is enumerated. -/
theorem find_route_none_iff {s : Snapshot} {cfg : RiskConfig} {avoid : List String}
    {t : ℚ} {o d : Nat} {prof : String} :
    find_route s cfg avoid t o d prof = none ↔
      pathsFrom (allowedEdges s avoid t) s.nodes.length [] o d = [] := by
  unfold find_route
  cases pathsFrom (allowedEdges s avoid t) s.nodes.length [] o d <;> simp

/-- The fastest profile weighs risk zero. -/
theorem profileK_fastest (cfg : RiskConfig) : profileK cfg "fastest" = 0 := rfl

/-- The safest profile weighs risk by the configured large factor. -/
theorem profileK_safest (cfg : RiskConfig) : profileK cfg "safest" = cfg.ksafe := rfl

/-- The balanced profile weighs risk one. -/
theorem profileK_balanced (cfg : RiskConfig) : profileK cfg "balanced" = 1 := rfl

/-- Scalarization monotonicity: between two exact minimizers of base plus
K times risk, the one at the larger K has no more risk. -/
theorem risk_le_of_scalar_min {bx rx by' ry k1 k2 : ℚ} (h12 : k1 < k2)
    (hx : bx + k1 * rx ≤ by' + k1 * ry) (hy : by' + k2 * ry ≤ bx + k2 * rx) :
    ry ≤ rx := by nlinarith

/-- C2: with flood in the avoid list, a returned route contains zero edges
with an active flood exposure; and with the avoid list consisting of flood
alone, the search returns NoRouteFound exactly when no feasible flood-free
path exists - never a path that silently crosses an active flood zone. -/
theorem C2_flood_hard_exclusion (s : Snapshot) (cfg : RiskConfig)
    (avoid : List String) (t : ℚ) (o d : Nat) (prof : String)
    (hwf : ∀ e ∈ s.edges, e.src ∈ s.nodes ∧ e.dst ∈ s.nodes)
    (hfl : "flood" ∈ avoid) :
    (∀ p, find_route s cfg avoid t o d prof = some p →
      ∀ e ∈ p, ¬ ActiveTypeExposed s t e "flood") ∧
    (avoid = ["flood"] →
      (find_route s cfg avoid t o d prof = none ↔ ¬ FloodFreePath s t o d)) := by
  have hsound : ∀ p, find_route s cfg avoid t o d prof = some p →
      ∀ e ∈ p, ¬ ActiveTypeExposed s t e "flood" := by
    intro p hp e hep hexp
    obtain ⟨hmem, _⟩ := find_route_some hp
    obtain ⟨hwalk, _, _⟩ := pathsFrom_sound _ _ _ _ _ hmem
    have he := hwalk.edge_mem e hep
    obtain ⟨_, hnotex⟩ := allowedEdges_mem.1 he
    obtain ⟨x, hx, hty, hact⟩ := hexp
    exact hnotex ⟨x, hx, hty ▸ hfl, hact⟩
  refine ⟨hsound, fun havoid => ?_⟩
  constructor
  · intro hnone hfree
    obtain ⟨p, hwalkFull, hnd, hff⟩ := hfree
    have hallowed : ∀ e ∈ p, e ∈ allowedEdges s avoid t := by
      intro e hep
      refine allowedEdges_mem.2 ⟨hwalkFull.edge_mem e hep, ?_⟩
      rintro ⟨x, hx, hty, hact⟩
      rw [havoid, List.mem_singleton] at hty
      exact hff e hep ⟨x, hx, hty, hact⟩
    have hwalkA : IsWalk (allowedEdges s avoid t) o p d := hwalkFull.mono hallowed
    have hwfA : ∀ e ∈ allowedEdges s avoid t, e.src ∈ s.nodes ∧ e.dst ∈ s.nodes :=
      fun e he => hwf e (allowedEdges_mem.1 he).1
    have hlen : p.length ≤ s.nodes.length := simple_walk_length_le hwalkA hnd hwfA
    have hmem := pathsFrom_complete hwalkA s.nodes.length [] hnd (by simp) hlen
    rw [find_route_none_iff] at hnone
    rw [hnone] at hmem
    simp at hmem
  · intro hnofree
    cases hres : find_route s cfg avoid t o d prof with
    | none => rfl
    | some p =>
      exfalso
      apply hnofree
      obtain ⟨hmem, _⟩ := find_route_some hres
      obtain ⟨hwalk, hnd, _⟩ := pathsFrom_sound _ _ _ _ _ hmem
      refine ⟨p,
        hwalk.mono (fun e he => (allowedEdges_mem.1 (hwalk.edge_mem e he)).1), hnd, ?_⟩
      exact fun e hep => hsound p hres e hep

/-- Witness for C2: the three-node flood scenario of the spec with the
avoid list consisting of flood. -/
theorem C2_flood_hard_exclusion_witness :
    (∀ e ∈ floodSnapshot.edges, e.src ∈ floodSnapshot.nodes ∧ e.dst ∈ floodSnapshot.nodes) ∧
      ("flood" ∈ (["flood"] : List String)) ∧
      (find_route floodSnapshot cfgEx ["flood"] 0 1 3 "safest" = none ↔
        ¬ FloodFreePath floodSnapshot 0 1 3) :=
  ⟨by decide, by decide,
    (C2_flood_hard_exclusion floodSnapshot cfgEx ["flood"] 0 1 3 "safest"
      (by decide) (by decide)).2 rfl⟩

/-- C8: for a comparison in which a strictly safer candidate is reachable
without hard exclusions, the three profile routes order their risk terms as
fastest at least balanced at least safest; no analogous ordering of
durations is claimed. -/
theorem C8_risk_ordering (s : Snapshot) (cfg : RiskConfig) (avoid : List String)
    (t : ℚ) (o d : Nat) (pf pb ps : List SEdge)
    (hk : 1 < cfg.ksafe)
    (hf : find_route s cfg avoid t o d "fastest" = some pf)
    (hb : find_route s cfg avoid t o d "balanced" = some pb)
    (hs : find_route s cfg avoid t o d "safest" = some ps)
    (hsafer : ∃ q ∈ pathsFrom (allowedEdges s avoid t) s.nodes.length [] o d,
      pathRisk s cfg t q < pathRisk s cfg t pf) :
    pathRisk s cfg t ps ≤ pathRisk s cfg t pb ∧
      pathRisk s cfg t pb ≤ pathRisk s cfg t pf := by
  obtain ⟨hfm, hfmin⟩ := find_route_some hf
  obtain ⟨hbm, hbmin⟩ := find_route_some hb
  obtain ⟨hsm, hsmin⟩ := find_route_some hs
  constructor
  · have hx := hbmin ps hsm
    have hy := hsmin pb hbm
    simp only [pathCost, profileK_balanced, profileK_safest] at hx hy
    exact risk_le_of_scalar_min hk hx hy
  · have hx := hfmin pb hbm
    have hy := hbmin pf hfm
    simp only [pathCost, profileK_balanced, profileK_fastest] at hx hy
    exact risk_le_of_scalar_min (by norm_num) hx hy

/-- Witness for C8: on the direct-versus-detour snapshot the fastest and
balanced searches take the risky direct edge while the safest search takes
the hazard-free detour, and the risk ordering holds. -/
theorem C8_risk_ordering_witness :
    ((1 : ℚ) < cfgEx.ksafe) ∧
      pathRisk orderSnapshot cfgEx 0 [eOut, eIn] ≤ pathRisk orderSnapshot cfgEx 0 [eDirect] ∧
      pathRisk orderSnapshot cfgEx 0 [eDirect] ≤ pathRisk orderSnapshot cfgEx 0 [eDirect] := by
  have hcand : pathsFrom (allowedEdges orderSnapshot [] 0) orderSnapshot.nodes.length [] 1 3
      = [[eDirect], [eOut, eIn]] := rfl
  have hriskDirect : pathRisk orderSnapshot cfgEx 0 [eDirect] = 20 := by
    norm_num [pathRisk, edgeRisk, edgeRiskOn, exposuresFor, riskContribution, severityWeight,
      weightOf, ActiveAt, startOk, endOk, orderSnapshot, cfgEx, eDirect]
  have hriskDetour : pathRisk orderSnapshot cfgEx 0 [eOut, eIn] = 0 := by
    norm_num [pathRisk, edgeRisk, edgeRiskOn, exposuresFor, orderSnapshot, eOut, eIn]
  have hbaseD : pathBase [eDirect] = 10 := by norm_num [pathBase, eDirect]
  have hbaseT : pathBase [eOut, eIn] = 40 := by norm_num [pathBase, eOut, eIn]
  have hkval : cfgEx.ksafe = 100 := rfl
  have hnoBetterF : ¬ BetterPath orderSnapshot cfgEx 0 "fastest" [eOut, eIn] [eDirect] := by
    norm_num [BetterPath, pathCost, profileK_fastest, hriskDirect, hriskDetour, hbaseD, hbaseT]
  have hnoBetterB : ¬ BetterPath orderSnapshot cfgEx 0 "balanced" [eOut, eIn] [eDirect] := by
    norm_num [BetterPath, pathCost, profileK_balanced, hriskDirect, hriskDetour, hbaseD, hbaseT]
  have hBetterS : BetterPath orderSnapshot cfgEx 0 "safest" [eOut, eIn] [eDirect] := by
    norm_num [BetterPath, pathCost, profileK_safest, hriskDirect, hriskDetour, hbaseD, hbaseT,
      hkval]
  have hf : find_route orderSnapshot cfgEx [] 0 1 3 "fastest" = some [eDirect] := by
    unfold find_route
    rw [hcand]
    exact congrArg some (by simp [pickBest, hnoBetterF])
  have hb : find_route orderSnapshot cfgEx [] 0 1 3 "balanced" = some [eDirect] := by
    unfold find_route
    rw [hcand]
    exact congrArg some (by simp [pickBest, hnoBetterB])
  have hs : find_route orderSnapshot cfgEx [] 0 1 3 "safest" = some [eOut, eIn] := by
    unfold find_route
    rw [hcand]
    exact congrArg some (by simp [pickBest, hBetterS])
  have hsafer : ∃ q ∈ pathsFrom (allowedEdges orderSnapshot [] 0)
      orderSnapshot.nodes.length [] 1 3,
      pathRisk orderSnapshot cfgEx 0 q < pathRisk orderSnapshot cfgEx 0 [eDirect] := by
    refine ⟨[eOut, eIn], ?_, ?_⟩
    · rw [hcand]
      simp
    · rw [hriskDirect, hriskDetour]
      norm_num
  have h := C8_risk_ordering orderSnapshot cfgEx [] 0 1 3 [eDirect] [eDirect] [eOut, eIn]
    (by norm_num [cfgEx]) hf hb hs hsafer
  exact ⟨by norm_num [cfgEx], h.1, h.2⟩

/-- C9: a hazard whose effective end lies before the departure time is
inactive at that time, so each of its exposures contributes exactly zero
risk whatever the geometric intersection measure, and dropping it leaves
every edge risk sum unchanged. -/
theorem C9_expired_hazard_zero_risk (cfg : RiskConfig) (t te : ℚ) (x : Exposure)
    (hend : x.hazard.eff_end = some te) (hlt : te < t) :
    riskContribution cfg t x = 0 ∧
      ∀ L, edgeRiskOn cfg t (x :: L) = edgeRiskOn cfg t L := by
  have hact : ¬ ActiveAt x.hazard t := by
    rintro ⟨_, hend'⟩
    rw [hend] at hend'
    exact absurd hend' (not_le.2 hlt)
  refine ⟨by simp [riskContribution, hact], fun L => ?_⟩
  simp [edgeRiskOn, riskContribution, hact]

/-- Witness for C9: a flood exposure whose hazard expired at time 5
contributes zero risk at departure time 10. -/
theorem C9_expired_hazard_zero_risk_witness :
    (expiredExposure.hazard.eff_end = some 5) ∧ ((5 : ℚ) < 10) ∧
      riskContribution cfgEx 10 expiredExposure = 0 :=
  ⟨rfl, by norm_num,
    (C9_expired_hazard_zero_risk cfgEx 10 5 expiredExposure rfl (by norm_num)).1⟩

end ClimateNav
